import Mathlib

/-!
# Verification of the laundry-backend notification dispatch pipeline

A shallow embedding of the WhatsApp notification pipeline of the
laundry-backend repository, together with proofs about its behaviour.

Embedded source files:
* `app/services/notification_service.py` (dispatch orchestrator: send, bulk
  send, retry, preference checks, template rendering),
* `app/services/whatsapp.py` (channel client: phone normalization, record
  status updates, webhook signature verification),
* `app/schemas/notification.py` (request validation),
* `app/models/notification.py` (data model and enumerations).

Modelling conventions:
* Python strings are modelled as `List Char` (named `Str` below); byte strings
  (used by the HMAC computation) as `List Nat` with byte values.
* `datetime` values are modelled as natural numbers; `datetime.utcnow()` is a
  `now : Nat` parameter.
* Python truthiness of an optional string (`if s:`) is `pyTruthy`: false
  exactly for `None` and the empty string.
* The network call of the channel client is an oracle parameter
  (`ChannelOutcome`): the provider either returns a message id or an error
  text.  The surrounding record updates are translated from the source.
* SQLAlchemy sessions flush only the attributes assigned in them.  The
  orchestrator and the channel client use two different sessions writing the
  same row (`send_notification` lines 103-109 and `_update_notification_status`
  lines 249-267); the model applies the channel-side update first and then the
  orchestrator's assignments, which only touch the attributes assigned by the
  orchestrator.  This mirrors the two committed writes.
-/

set_option maxRecDepth 100000

namespace Laundry

/-- Python strings, modelled as lists of characters. -/
abbrev Str := List Char

/-- Python truthiness of an optional string: `None` and `""` are falsy. -/
def pyTruthy : Option Str → Bool
  | none => false
  | some s => !s.isEmpty

/-- Python `a or b` on optional strings: `b` whenever `a` is falsy. -/
def pyOr (a b : Option Str) : Option Str :=
  if pyTruthy a then a else b

/-- Python `str.replace(old, new)` restricted by a fuel argument: replaces
non-overlapping occurrences of `pat` from left to right, continuing after the
replacement text (which is not rescanned).  `fuel` bounds the recursion and is
instantiated with the length of the scanned list. -/
def replaceAllF [BEq α] (pat rep : List α) : Nat → List α → List α
  | _, [] => []
  | 0, l => l
  | f + 1, a :: l =>
    if !pat.isEmpty && pat.isPrefixOf (a :: l) then
      rep ++ replaceAllF pat rep f (l.drop (pat.length - 1))
    else
      a :: replaceAllF pat rep f l

/-- Python `str.replace(old, new)`: every non-overlapping occurrence of `pat`
in `l` is replaced by `rep`, scanning left to right. -/
def replaceAll [BEq α] (pat rep l : List α) : List α :=
  replaceAllF pat rep l.length l

/-- `pat` occurs as a contiguous run somewhere in `l`. -/
def occursIn (pat l : List α) : Prop := ∃ s t, l = s ++ pat ++ t

/-! ## SHA-256 and HMAC-SHA256 (used by `verify_webhook_signature`)

`whatsapp.py` delegates to Python's `hashlib`/`hmac`; the functions below are
the standard FIPS 180-4 SHA-256 and RFC 2104 HMAC over byte lists, checked
against published test vectors further down. -/

/-- 32-bit mask. -/
def mask32 : Nat := 0xFFFFFFFF

/-- Right rotation of a 32-bit word. -/
def rotr (x n : Nat) : Nat := ((x >>> n) ||| (x <<< (32 - n))) &&& mask32

/-- SHA-256 round constants (FIPS 180-4 §4.2.2, written in decimal). -/
def shaK : List Nat :=
  [1116352408, 1899447441, 3049323471, 3921009573, 961987163,
   1508970993, 2453635748, 2870763221, 3624381080, 310598401,
   607225278, 1426881987, 1925078388, 2162078206, 2614888103,
   3248222580, 3835390401, 4022224774, 264347078, 604807628,
   770255983, 1249150122, 1555081692, 1996064986, 2554220882,
   2821834349, 2952996808, 3210313671, 3336571891, 3584528711,
   113926993, 338241895, 666307205, 773529912, 1294757372,
   1396182291, 1695183700, 1986661051, 2177026350, 2456956037,
   2730485921, 2820302411, 3259730800, 3345764771, 3516065817,
   3600352804, 4094571909, 275423344, 430227734, 506948616,
   659060556, 883997877, 958139571, 1322822218, 1537002063,
   1747873779, 1955562222, 2024104815, 2227730452, 2361852424,
   2428436474, 2756734187, 3204031479, 3329325298]

/-- The eight working variables of the SHA-256 compression function. -/
structure H8 where
  a : Nat
  b : Nat
  c : Nat
  d : Nat
  e : Nat
  f : Nat
  g : Nat
  h : Nat
deriving DecidableEq

/-- SHA-256 initial hash value (FIPS 180-4 §5.3.3, written in decimal). -/
def shaH0 : H8 :=
  ⟨1779033703, 3144134277, 1013904242, 2773480762,
   1359893119, 2600822924, 528734635, 1541459225⟩

/-- Convert four bytes (big-endian) to a 32-bit word. -/
def toWord (b0 b1 b2 b3 : Nat) : Nat := (b0 <<< 24) + (b1 <<< 16) + (b2 <<< 8) + b3

/-- Split a 64-byte block into sixteen 32-bit words. -/
def toWords : List Nat → List Nat
  | b0 :: b1 :: b2 :: b3 :: rest => toWord b0 b1 b2 b3 :: toWords rest
  | _ => []

/-- Extend sixteen words to the 64-entry SHA-256 message schedule; `fuel`
counts the entries still to be appended. -/
def buildSchedule : Nat → List Nat → List Nat
  | 0, w => w
  | f + 1, w =>
    let i := w.length
    let s0 :=
      rotr (w.getD (i - 15) 0) 7 ^^^ rotr (w.getD (i - 15) 0) 18 ^^^ (w.getD (i - 15) 0 >>> 3)
    let s1 :=
      rotr (w.getD (i - 2) 0) 17 ^^^ rotr (w.getD (i - 2) 0) 19 ^^^ (w.getD (i - 2) 0 >>> 10)
    buildSchedule f (w ++ [(w.getD (i - 16) 0 + s0 + w.getD (i - 7) 0 + s1) &&& mask32])

/-- One round of the SHA-256 compression function. -/
def compressStep (st : H8) (kw : Nat × Nat) : H8 :=
  let S1 := rotr st.e 6 ^^^ rotr st.e 11 ^^^ rotr st.e 25
  let ch := (st.e &&& st.f) ^^^ ((st.e ^^^ mask32) &&& st.g)
  let temp1 := (st.h + S1 + ch + kw.1 + kw.2) &&& mask32
  let S0 := rotr st.a 2 ^^^ rotr st.a 13 ^^^ rotr st.a 22
  let maj := (st.a &&& st.b) ^^^ (st.a &&& st.c) ^^^ (st.b &&& st.c)
  let temp2 := (S0 + maj) &&& mask32
  ⟨(temp1 + temp2) &&& mask32, st.a, st.b, st.c, (st.d + temp1) &&& mask32, st.e, st.f, st.g⟩

/-- Process one 64-byte block. -/
def compress (st : H8) (block : List Nat) : H8 :=
  let w := buildSchedule 48 (toWords block)
  let r := (List.zip shaK w).foldl compressStep st
  ⟨(st.a + r.a) &&& mask32, (st.b + r.b) &&& mask32, (st.c + r.c) &&& mask32,
   (st.d + r.d) &&& mask32, (st.e + r.e) &&& mask32, (st.f + r.f) &&& mask32,
   (st.g + r.g) &&& mask32, (st.h + r.h) &&& mask32⟩

/-- SHA-256 padding: append `0x80`, zeros, and the 64-bit big-endian bit
length. -/
def shaPad (msg : List Nat) : List Nat :=
  let len := msg.length
  let zeros := (119 - len % 64) % 64
  let bitLen := len * 8
  msg ++ [0x80] ++ List.replicate zeros 0 ++
    [(bitLen >>> 56) % 256, (bitLen >>> 48) % 256, (bitLen >>> 40) % 256, (bitLen >>> 32) % 256,
     (bitLen >>> 24) % 256, (bitLen >>> 16) % 256, (bitLen >>> 8) % 256, bitLen % 256]

/-- Split a padded message into 64-byte blocks; `fuel` bounds the recursion. -/
def chunks64 : Nat → List Nat → List (List Nat)
  | 0, _ => []
  | _ + 1, [] => []
  | f + 1, l => l.take 64 :: chunks64 f (l.drop 64)

/-- Serialize the final hash state to 32 bytes (big-endian words). -/
def h8ToBytes (st : H8) : List Nat :=
  [st.a, st.b, st.c, st.d, st.e, st.f, st.g, st.h].flatMap fun w =>
    [(w >>> 24) % 256, (w >>> 16) % 256, (w >>> 8) % 256, w % 256]

/-- SHA-256 of a byte list. -/
def sha256 (msg : List Nat) : List Nat :=
  let padded := shaPad msg
  h8ToBytes ((chunks64 padded.length padded).foldl compress shaH0)

/-- HMAC-SHA256 (key and message as byte lists). -/
def hmacSha256 (key msg : List Nat) : List Nat :=
  let k0 := if 64 < key.length then sha256 key else key
  let k := k0 ++ List.replicate (64 - k0.length) 0
  sha256 ((k.map (· ^^^ 0x5c)) ++ sha256 ((k.map (· ^^^ 0x36)) ++ msg))

/-- Lower-case hex digit (ASCII code) for a value below 16. -/
def hexChar (n : Nat) : Nat := if n < 10 then 48 + n else 87 + n

/-- Lower-case hex encoding of a byte list, as ASCII codes
(`hashlib...hexdigest()`). -/
def hexDigest (bytes : List Nat) : List Nat :=
  bytes.flatMap fun b => [hexChar (b / 16), hexChar (b % 16)]

/-- ASCII codes of a Lean string (for writing byte-level test data). -/
def asciiOf (s : String) : List Nat := s.data.map Char.toNat

/-- The byte string `"sha256="`, the provider prefix stripped by
`verify_webhook_signature`. -/
def shaMarker : List Nat := asciiOf "sha256="

/-- `WhatsAppService.verify_webhook_signature` (whatsapp.py lines 280-300),
with the configured `app_secret`, the payload and the signature header as byte
strings.  With no secret configured (`None` or empty) verification is skipped.
Otherwise the code runs `signature.replace('sha256=', '')` — note: this removes
every occurrence of `"sha256="`, not only a leading prefix — and compares the
result against `hmac.new(secret, payload, sha256).hexdigest()` with
`hmac.compare_digest` (a timing-safe equality test). -/
def verifyWebhookSignature (app_secret : Option (List Nat)) (payload signature : List Nat) :
    Bool :=
  match app_secret with
  | none => true
  | some s =>
    if s.isEmpty then true
    else replaceAll shaMarker [] signature == hexDigest (hmacSha256 s payload)

/-- ASCII code of a lower-case hexadecimal digit. -/
def isHexByte (b : Nat) : Bool := decide ((48 ≤ b ∧ b ≤ 57) ∨ (97 ≤ b ∧ b ≤ 102))

/-! ## Data model (`app/models/notification.py`) -/

/-- `NotificationType` (models/notification.py lines 8-17). -/
inductive NotificationType
  | order_confirmation
  | status_update
  | pickup_reminder
  | delivery_reminder
  | payment_confirmation
  | loyalty_update
  | promotional
  | feedback_request
  | custom
deriving DecidableEq

/-- `MessageStatus` (models/notification.py lines 20-26). -/
inductive MessageStatus
  | pending
  | sent
  | delivered
  | read
  | failed
  | rejected
deriving DecidableEq

/-- A customer, with the contact phone resolved through the `user`
relationship (`customer.user.phone`, nullable). -/
structure Customer where
  id : Nat
  phone : Option Str
deriving DecidableEq

/-- `NotificationPreference` — the fields read by the pipeline. -/
structure NotificationPreference where
  customer_id : Nat
  whatsapp_opted_in : Bool
  whatsapp_phone : Option Str
  order_updates : Bool
  pickup_reminders : Bool
  promotional_messages : Bool
  loyalty_updates : Bool
  feedback_requests : Bool
  preferred_language : Str
deriving DecidableEq

/-- `MessageTemplate` — the fields read by the pipeline. -/
structure MessageTemplate where
  id : Nat
  template_name : Str
  body_text : Str
  is_active : Bool
  is_approved : Bool
deriving DecidableEq

/-- `Notification` — the fields written or read by the pipeline.  Timestamps
are `Option Nat` (nullable columns). -/
structure Notification where
  id : Nat
  customer_id : Nat
  template_id : Option Nat
  order_id : Option Nat
  notification_type : NotificationType
  recipient_phone : Str
  message_text : Str
  whatsapp_message_id : Option Str
  template_name : Option Str
  template_language : Str
  template_parameters : Option (List Str)
  status : MessageStatus
  error_message : Option Str
  retry_count : Nat
  scheduled_at : Option Nat
  sent_at : Option Nat
  updated_at : Option Nat
deriving DecidableEq

/-- `SendNotificationRequest` (schemas/notification.py lines 126-141). -/
structure SendNotificationRequest where
  customer_id : Nat
  notification_type : NotificationType
  template_name : Option Str
  template_parameters : Option (List Str)
  header_parameters : Option (List Str)
  custom_message : Option Str
  order_id : Option Nat
  scheduled_at : Option Nat
deriving DecidableEq

/-! ## Channel client (`app/services/whatsapp.py`) -/

/-- The outcome of the provider's `POST .../messages` call: a 200 response
carrying a message id, or an error (API rejection or network failure — both
are caught and reported identically). -/
inductive ChannelOutcome
  | ok (message_id : Str)
  | apiError (error_msg : Str)
deriving DecidableEq

/-- The dictionary returned by `send_template_message` / `send_text_message`:
`{"success": ..., "message_id": ..., "error": ...}`. -/
structure SendResult where
  success : Bool
  message_id : Option Str
  error : Option Str
deriving DecidableEq

/-- `WhatsAppService._update_notification_status` (whatsapp.py lines 241-272):
sets the status and `updated_at`; a truthy `message_id` additionally sets
`whatsapp_message_id` and `sent_at`; a truthy `error_message` additionally sets
`error_message` and increments `retry_count`. -/
def updateNotificationStatus (n : Notification) (status : MessageStatus)
    (message_id error_message : Option Str) (now : Nat) : Notification :=
  let n1 := { n with status := status, updated_at := some now }
  let n2 :=
    if pyTruthy message_id then
      { n1 with whatsapp_message_id := message_id, sent_at := some now }
    else n1
  if pyTruthy error_message then
    { n2 with error_message := error_message, retry_count := n2.retry_count + 1 }
  else n2

/-- `send_template_message` / `send_text_message` (whatsapp.py lines 36-226)
as they act on a notification record: a disabled channel short-circuits to a
fixed error without touching the record; otherwise the record is updated via
`_update_notification_status` according to the provider outcome, and the
result dictionary is returned. -/
def sendViaWhatsApp (enabled : Bool) (outcome : ChannelOutcome) (n : Notification) (now : Nat) :
    Notification × SendResult :=
  if !enabled then
    (n, ⟨false, none, some "WhatsApp notifications disabled".data⟩)
  else
    match outcome with
    | .ok mid => (updateNotificationStatus n .sent (some mid) none now, ⟨true, some mid, none⟩)
    | .apiError e =>
      (updateNotificationStatus n .failed none (some e) now, ⟨false, none, some e⟩)

/-- `WhatsAppService._clean_phone_number` (whatsapp.py lines 228-239): keep the
digits; prefix `"91"` when the result does not already start with `"91"` and
has exactly ten digits; otherwise replace a leading `"0"` by `"91"`. -/
def cleanPhoneNumber (phone : Str) : Str :=
  let clean := phone.filter Char.isDigit
  if !("91".data.isPrefixOf clean) && clean.length == 10 then
    "91".data ++ clean
  else if "0".data.isPrefixOf clean then
    "91".data ++ clean.tail
  else clean

/-! ## Dispatch orchestrator (`app/services/notification_service.py`) -/

/-- The default preference row created lazily by
`_get_notification_preferences` (lines 311-324); unset columns take the model
defaults (`whatsapp_phone=None`, `preferred_language="en"`). -/
def defaultPreferences (customer_id : Nat) : NotificationPreference :=
  { customer_id := customer_id
    whatsapp_opted_in := true
    whatsapp_phone := none
    order_updates := true
    pickup_reminders := true
    promotional_messages := true
    loyalty_updates := true
    feedback_requests := true
    preferred_language := "en".data }

/-- `NotificationService._get_notification_preferences` (lines 305-326):
return the stored row for the customer, creating (and persisting) a default
row when none exists. -/
def getNotificationPreferences (store : List NotificationPreference) (customer_id : Nat) :
    NotificationPreference × List NotificationPreference :=
  match store.find? (fun p => p.customer_id == customer_id) with
  | some p => (p, store)
  | none => (defaultPreferences customer_id, store ++ [defaultPreferences customer_id])

/-- `NotificationService._should_send_notification` (lines 328-348): the master
opt-in gate, then the per-category switch; categories absent from the mapping
(only CUSTOM) default to `True` via `dict.get(notification_type, True)`. -/
def shouldSendNotification (preferences : NotificationPreference)
    (notification_type : NotificationType) : Bool :=
  if !preferences.whatsapp_opted_in then
    false
  else
    match notification_type with
    | .order_confirmation => preferences.order_updates
    | .status_update => preferences.order_updates
    | .pickup_reminder => preferences.pickup_reminders
    | .delivery_reminder => preferences.pickup_reminders
    | .payment_confirmation => preferences.order_updates
    | .loyalty_update => preferences.loyalty_updates
    | .promotional => preferences.promotional_messages
    | .feedback_request => preferences.feedback_requests
    | .custom => true

/-- The decimal digits of a natural number as characters (Python `str(n)`);
`fuel` bounds the recursion and is instantiated with `n + 1`. -/
def natToCharsF : Nat → Nat → List Char
  | 0, _ => []
  | f + 1, n =>
    if n < 10 then [Char.ofNat (48 + n)]
    else natToCharsF f (n / 10) ++ [Char.ofNat (48 + n % 10)]

/-- Python `str(n)` for a natural number. -/
def natToChars (n : Nat) : List Char := natToCharsF (n + 1) n

/-- The placeholder string `"{{param<n>}}"` built by
`_build_message_from_template` for the `n`-th (1-indexed) parameter. -/
def placeholderChars (n : Nat) : Str :=
  "\x7b\x7bparam".data ++ natToChars n ++ "\x7d\x7d".data

/-- The parameter-substitution loop of
`NotificationService._build_message_from_template` (lines 350-363): for each
parameter in order, replace every occurrence of its placeholder in the current
message text.  `i` is the number of parameters already substituted. -/
def renderParams : Str → Nat → List Str → Str
  | msg, _, [] => msg
  | msg, i, p :: rest => renderParams (replaceAll (placeholderChars (i + 1)) p msg) (i + 1) rest

/-- `NotificationService._build_message_from_template` (lines 350-363). -/
def buildMessageFromTemplate (template : MessageTemplate) (parameters : List Str) : Str :=
  renderParams template.body_text 0 parameters

/-- The template-vs-custom-message branch of `send_notification` (lines
66-81): a truthy template name requires an active and approved template of
that name (else the call fails without creating a record) and renders its body;
otherwise the message text is the custom message, defaulting to
`"Order update"` when the custom message is falsy. -/
def resolveContent (templates : List MessageTemplate) (req : SendNotificationRequest) :
    Except Str (Option Nat × Str) :=
  if pyTruthy req.template_name then
    match templates.find? (fun t =>
        t.template_name == req.template_name.getD [] && t.is_active && t.is_approved) with
    | none => .error "Template not found or not approved".data
    | some t => .ok (some t.id, buildMessageFromTemplate t (req.template_parameters.getD []))
  else
    .ok (none, if pyTruthy req.custom_message then req.custom_message.getD [] else
      "Order update".data)

/-- `request.scheduled_at and request.scheduled_at > datetime.utcnow()`
(line 90). -/
def scheduledInFuture (scheduled_at : Option Nat) (now : Nat) : Bool :=
  match scheduled_at with
  | none => false
  | some t => now < t

/-- The dictionary returned by `send_notification`. -/
inductive SendOutcome
  /-- `{"success": False, "error": ...}` — an early return before dispatch. -/
  | failure (error : Str)
  /-- `{"success": True, "notification_id": ..., "status": "scheduled"}`. -/
  | scheduled (notification_id : Nat)
  /-- `{"success": ..., "notification_id": ..., "message_id": ..., "error": ...}`
  — the return after an immediate send attempt. -/
  | sent (success : Bool) (notification_id : Nat) (message_id : Option Str) (error : Option Str)
deriving DecidableEq

/-- The read-only stores `send_notification` consults. -/
structure Env where
  customers : List Customer
  templates : List MessageTemplate
  preferences : List NotificationPreference

/-- The post-send record update performed by `send_notification` itself (lines
102-109): its session assigns only the status, a truthy message id and a
truthy error text, so only those attributes are flushed over the channel-side
write. -/
def orchestratorRecordResult (n : Notification) (result : SendResult) : Notification :=
  let n1 := { n with status := if result.success then MessageStatus.sent else MessageStatus.failed }
  let n2 :=
    if pyTruthy result.message_id then { n1 with whatsapp_message_id := result.message_id }
    else n1
  if pyTruthy result.error then { n2 with error_message := result.error } else n2

/-- `NotificationService.send_notification` (lines 28-121).  The new record's
primary key is modelled as the current table length.  Returns the outcome
dictionary, the notification table and the preference table after the call. -/
def sendNotification (env : Env) (db : List Notification) (req : SendNotificationRequest)
    (enabled : Bool) (outcome : ChannelOutcome) (now : Nat) :
    SendOutcome × List Notification × List NotificationPreference :=
  match env.customers.find? (fun c => c.id == req.customer_id) with
  | none => (.failure "Customer not found".data, db, env.preferences)
  | some customer =>
    let pr := getNotificationPreferences env.preferences req.customer_id
    let preferences := pr.1
    let prefs := pr.2
    if !shouldSendNotification preferences req.notification_type then
      (.failure "Customer opted out".data, db, prefs)
    else
      let recipient_phone := pyOr preferences.whatsapp_phone customer.phone
      if !pyTruthy recipient_phone then
        (.failure "No phone number available".data, db, prefs)
      else
        match resolveContent env.templates req with
        | .error e => (.failure e, db, prefs)
        | .ok content =>
          let notification : Notification :=
            { id := db.length
              customer_id := req.customer_id
              template_id := content.1
              order_id := req.order_id
              notification_type := req.notification_type
              recipient_phone := recipient_phone.getD []
              message_text := content.2
              whatsapp_message_id := none
              template_name := req.template_name
              template_language := preferences.preferred_language
              template_parameters := req.template_parameters
              status := .pending
              error_message := none
              retry_count := 0
              scheduled_at := req.scheduled_at
              sent_at := none
              updated_at := none }
          if scheduledInFuture req.scheduled_at now then
            (.scheduled notification.id, db ++ [notification], prefs)
          else
            let sent := sendViaWhatsApp enabled outcome notification now
            let final := orchestratorRecordResult sent.1 sent.2
            (.sent sent.2.success notification.id sent.2.message_id sent.2.error,
             db ++ [final], prefs)

/-- `result["success"]` of a `send_notification` outcome dictionary. -/
def outcomeSuccess : SendOutcome → Bool
  | .failure _ => false
  | .scheduled _ => true
  | .sent s _ _ _ => s

/-- `result["error"]` of a `send_notification` outcome dictionary (read only
on the failure path of the bulk loop). -/
def outcomeError : SendOutcome → Option Str
  | .failure e => some e
  | .scheduled _ => none
  | .sent _ _ _ e => e

/-- The aggregate built by `send_bulk_notifications`:
`{"success": 0, "failed": 0, "errors": []}`. -/
structure BulkResults where
  success : Nat
  failed : Nat
  errors : List (Nat × Option Str)
deriving DecidableEq

/-- The loop of `NotificationService.send_bulk_notifications` (lines 123-155):
one `send_notification` per customer id, tallying successes and failures and
collecting per-customer errors; no outcome aborts the loop.  The per-customer
send is the `sendOne` parameter (the loop builds one `SendNotificationRequest`
per customer id from the shared bulk request and awaits `send_notification`
on it).  `bulkStep` is one loop iteration: tally the outcome and collect the
error on failure. -/
def bulkStep (sendOne : Nat → SendOutcome) (r : BulkResults) (cid : Nat) : BulkResults :=
  if outcomeSuccess (sendOne cid) then
    { r with success := r.success + 1 }
  else
    { r with failed := r.failed + 1, errors := r.errors ++ [(cid, outcomeError (sendOne cid))] }

/-- `NotificationService.send_bulk_notifications` (lines 123-155): the loop
over the customer ids, starting from `{"success": 0, "failed": 0, "errors": []}`. -/
def sendBulkNotifications (sendOne : Nat → SendOutcome) (customer_ids : List Nat) :
    BulkResults :=
  customer_ids.foldl (bulkStep sendOne) ⟨0, 0, []⟩

/-- `BulkNotificationRequest.validate_customer_ids`
(schemas/notification.py lines 153-157): reject batches above 100 ids. -/
def validateCustomerIds (customer_ids : List Nat) : Except Str (List Nat) :=
  if 100 < customer_ids.length then
    .error "Too many customers in batch (max 100)".data
  else
    .ok customer_ids

/-- A bulk request as processed end to end: pydantic validation of the
customer-id list, then the bulk send loop.  Validation failure raises before
any send is attempted. -/
def processBulkRequest (sendOne : Nat → SendOutcome) (customer_ids : List Nat) :
    Except Str BulkResults :=
  match validateCustomerIds customer_ids with
  | .error e => .error e
  | .ok ids => .ok (sendBulkNotifications sendOne ids)

/-- The selection filter of `retry_failed_notifications` (lines 388-391):
status FAILED and `retry_count < max_retries`. -/
def retryEligible (max_retries : Nat) (n : Notification) : Bool :=
  n.status == .failed && n.retry_count < max_retries

/-- One iteration of the retry loop (lines 395-419) on a selected record: the
channel client performs its own committed update, then the orchestrator
session assigns `retry_count` (from its loaded copy) and `updated_at`, plus
either the SENT status and message id or the error text, and commits; only the
assigned attributes are flushed. -/
def retryOne (enabled : Bool) (outcome : ChannelOutcome) (now : Nat) (n : Notification) :
    Notification :=
  let sent := sendViaWhatsApp enabled outcome n now
  let n2 := { sent.1 with retry_count := n.retry_count + 1, updated_at := some now }
  if sent.2.success then
    let mid := if pyTruthy sent.2.message_id then sent.2.message_id else n2.whatsapp_message_id
    { n2 with status := MessageStatus.sent, whatsapp_message_id := mid }
  else
    { n2 with error_message := sent.2.error }

/-- The aggregate of `retry_failed_notifications`:
`{"retried": 0, "success": 0, "failed": 0}`. -/
structure RetryAgg where
  retried : Nat
  success : Nat
  failed : Nat
deriving DecidableEq

/-- `NotificationService.retry_failed_notifications` (lines 386-421): select
the FAILED records below the retry ceiling, resend each (outcome given by the
`outcomes` oracle, keyed by record id) and update it, tallying the aggregate.
Unselected records are untouched. -/
def retryFailedNotifications (db : List Notification) (enabled : Bool)
    (outcomes : Nat → ChannelOutcome) (now : Nat) (max_retries : Nat) :
    List Notification × RetryAgg :=
  let agg :=
    (db.filter (retryEligible max_retries)).foldl
      (fun a n =>
        if (sendViaWhatsApp enabled (outcomes n.id) n now).2.success then
          { a with retried := a.retried + 1, success := a.success + 1 }
        else
          { a with retried := a.retried + 1, failed := a.failed + 1 })
      ⟨0, 0, 0⟩
  (db.map (fun n =>
      if retryEligible max_retries n then retryOne enabled (outcomes n.id) now n else n),
   agg)

/-! ## Concrete data used by witnesses and counterexamples -/

/-- The opening-brace character of a placeholder. -/
def lbrace : Char := '\x7b'

/-- A string contains no opening brace (so no placeholder can start in it). -/
def braceFree (l : Str) : Bool := l.all (fun ch => ch != lbrace)

/-- The secret `"s"` of the webhook-signature scenario, as bytes. -/
def c6secret : List Nat := asciiOf "s"

/-- The payload `"p"` of the webhook-signature scenario, as bytes. -/
def c6payload : List Nat := asciiOf "p"

/-- `hmac_sha256("s", "p")` as a lower-case hex string (bytes). -/
def c6digest : List Nat := hexDigest (hmacSha256 c6secret c6payload)

/-- The correct hex digest with an extra `"sha256="` marker spliced into the
middle: neither the digest nor the prefixed digest, yet accepted by
`verify_webhook_signature` because `str.replace` removes every occurrence of
the marker. -/
def c6splicedSig : List Nat := c6digest.take 3 ++ shaMarker ++ c6digest.drop 3

/-- The customer of the demonstration scenario (spec §8, property 7): id 7,
profile phone `"9876543210"`. -/
def demoCustomer : Customer := ⟨7, some "9876543210".data⟩

/-- The active and approved `order_confirmation` template of the
demonstration scenario. -/
def demoTemplate : MessageTemplate :=
  ⟨1, "order_confirmation".data,
   "Hi \x7b\x7bparam1\x7d\x7d! Order \x7b\x7bparam2\x7d\x7d for \x7b\x7bparam3\x7d\x7d".data,
   true, true⟩

/-- Demonstration environment: one customer, one template, no stored
preferences (so the permissive default row is created lazily). -/
def demoEnv : Env := ⟨[demoCustomer], [demoTemplate], []⟩

/-- A stored preference row for customer 7 with `order_updates` disabled and
everything else permissive. -/
def optedOutPrefs : NotificationPreference :=
  { customer_id := 7
    whatsapp_opted_in := true
    whatsapp_phone := none
    order_updates := false
    pickup_reminders := true
    promotional_messages := true
    loyalty_updates := true
    feedback_requests := true
    preferred_language := "en".data }

/-- Environment whose stored preferences disable order updates for
customer 7. -/
def optedOutEnv : Env := ⟨[demoCustomer], [demoTemplate], [optedOutPrefs]⟩

/-- A template-based order-confirmation request from customer 7 (the
demonstration scenario). -/
def demoRequest : SendNotificationRequest :=
  { customer_id := 7
    notification_type := .order_confirmation
    template_name := some "order_confirmation".data
    template_parameters := some ["Ana".data, "LP123456AB12".data, "450.00".data]
    header_parameters := none
    custom_message := none
    order_id := none
    scheduled_at := none }

/-- A request with neither a template name nor a custom message. -/
def bareRequest : SendNotificationRequest :=
  { customer_id := 7
    notification_type := .custom
    template_name := none
    template_parameters := none
    header_parameters := none
    custom_message := none
    order_id := none
    scheduled_at := none }

/-- A request naming a template that is not in the store. -/
def missingTemplateRequest : SendNotificationRequest :=
  { demoRequest with template_name := some "no_such_template".data }

/-- A FAILED record with one prior retry (eligible for a retry at ceiling 3). -/
def failedOnceNotification : Notification :=
  { id := 0
    customer_id := 7
    template_id := none
    order_id := none
    notification_type := .custom
    recipient_phone := "9876543210".data
    message_text := "Order update".data
    whatsapp_message_id := none
    template_name := none
    template_language := "en".data
    template_parameters := none
    status := .failed
    error_message := some "boom".data
    retry_count := 1
    scheduled_at := none
    sent_at := none
    updated_at := none }

/-- A FAILED record already at the retry ceiling 3. -/
def exhaustedNotification : Notification :=
  { failedOnceNotification with id := 1, retry_count := 3 }

/-- A per-customer send outcome for the bulk witness: customer 1 fails,
everyone else succeeds. -/
def c9demoSend : Nat → SendOutcome := fun i =>
  if i == 1 then .failure "Customer not found".data else .sent true 0 none none

/-! ## Test vectors for the hash implementation -/

/-- FIPS 180-2 test vector: `sha256("abc")`. -/
theorem sha256_abc_vector :
    hexDigest (sha256 (asciiOf "abc")) =
      asciiOf "ba7816bf8f01cfea414140de5dae2223b00361a396177a9cb410ff61f20015ad" := by
  decide

/-- RFC 4231 test case 2: `HMAC-SHA256("Jefe", "what do ya want for nothing?")`. -/
theorem hmacSha256_rfc4231_vector :
    hexDigest (hmacSha256 (asciiOf "Jefe") (asciiOf "what do ya want for nothing?")) =
      asciiOf "5bdcc146bf60754e6a042426089575c75a003f089d2739839dec58b964ec3843" := by
  decide

/-! ## Generic lemmas about `replaceAll` -/

theorem replaceAllF_fuel_eq [BEq α] (pat rep : List α) :
    ∀ (f₁ f₂ : Nat) (l : List α), l.length ≤ f₁ → l.length ≤ f₂ →
      replaceAllF pat rep f₁ l = replaceAllF pat rep f₂ l := by
  intro f₁
  induction f₁ with
  | zero =>
    intro f₂ l h1 _
    have hl : l = [] := by cases l with
      | nil => rfl
      | cons a l => simp at h1
    subst hl
    cases f₂ <;> rfl
  | succ f ih =>
    intro f₂ l h1 h2
    cases l with
    | nil => cases f₂ <;> rfl
    | cons a l =>
      cases f₂ with
      | zero => simp at h2
      | succ f₂ =>
        simp only [List.length_cons, Nat.succ_le_succ_iff] at h1 h2
        simp only [replaceAllF]
        by_cases hc : (!pat.isEmpty && pat.isPrefixOf (a :: l)) = true
        · rw [if_pos hc, if_pos hc,
            ih _ _ (le_trans (by simpa using List.length_drop_le _ _) h1)
              (le_trans (by simpa using List.length_drop_le _ _) h2)]
        · rw [if_neg hc, if_neg hc, ih _ _ h1 h2]

theorem replaceAllF_eq_replaceAll [BEq α] (pat rep : List α) (f : Nat) (l : List α)
    (h : l.length ≤ f) : replaceAllF pat rep f l = replaceAll pat rep l :=
  replaceAllF_fuel_eq pat rep f l.length l h le_rfl

theorem isPrefixOf_iff_append [BEq α] [LawfulBEq α] (pat l : List α) :
    pat.isPrefixOf l = true ↔ ∃ t, l = pat ++ t := by
  induction pat generalizing l with
  | nil => simpa using ⟨l, rfl⟩
  | cons p pr ih =>
    cases l with
    | nil => simp [List.isPrefixOf]
    | cons a l =>
      simp only [List.isPrefixOf, Bool.and_eq_true, beq_iff_eq, ih, List.cons_append,
        List.cons.injEq]
      constructor
      · rintro ⟨rfl, t, rfl⟩
        exact ⟨t, rfl, rfl⟩
      · rintro ⟨t, rfl, rfl⟩
        exact ⟨rfl, t, rfl⟩

theorem isPrefixOf_append_self [BEq α] [LawfulBEq α] (l t : List α) :
    l.isPrefixOf (l ++ t) = true :=
  (isPrefixOf_iff_append l (l ++ t)).mpr ⟨t, rfl⟩

theorem replaceAll_nil [BEq α] (pat rep : List α) : replaceAll pat rep [] = [] := rfl

theorem replaceAll_cons_of_not_match [BEq α] (pat rep : List α) (a : α) (l : List α)
    (h : pat.isPrefixOf (a :: l) = false) :
    replaceAll pat rep (a :: l) = a :: replaceAll pat rep l := by
  simp only [replaceAll, List.length_cons, replaceAllF, h, Bool.and_false, if_neg]
  simp

theorem replaceAll_append_self [BEq α] [LawfulBEq α] (pat rep v : List α) (hne : pat ≠ []) :
    replaceAll pat rep (pat ++ v) = rep ++ replaceAll pat rep v := by
  obtain ⟨p, pr, rfl⟩ : ∃ p pr, pat = p :: pr := by
    cases pat with
    | nil => exact absurd rfl hne
    | cons p pr => exact ⟨p, pr, rfl⟩
  have hcond : (!(p :: pr).isEmpty && (p :: pr).isPrefixOf (p :: (pr ++ v))) = true := by
    simp only [List.isEmpty_cons, Bool.not_false, Bool.true_and]
    simpa using isPrefixOf_append_self (p :: pr) v
  show replaceAllF (p :: pr) rep ((p :: pr) ++ v).length ((p :: pr) ++ v) = _
  simp only [List.cons_append, List.length_cons, replaceAllF, Nat.add_sub_cancel,
    List.append_eq]
  rw [if_pos hcond]
  congr 1
  rw [List.drop_left]
  exact replaceAllF_eq_replaceAll _ _ _ _ (by simp)

theorem replaceAll_of_not_occurs [BEq α] [LawfulBEq α] (pat rep : List α) :
    ∀ (f : Nat) (l : List α), l.length ≤ f → ¬ occursIn pat l →
      replaceAllF pat rep f l = l := by
  intro f
  induction f with
  | zero =>
    intro l h1 _
    cases l with
    | nil => rfl
    | cons a l => simp at h1
  | succ f ih =>
    intro l h1 hocc
    cases l with
    | nil => rfl
    | cons a l =>
      simp only [List.length_cons, Nat.succ_le_succ_iff] at h1
      simp only [replaceAllF]
      rw [if_neg, ih l h1]
      · intro ⟨s, t, hst⟩
        exact hocc ⟨a :: s, t, by simp [hst]⟩
      · intro hc
        obtain ⟨-, hp⟩ := Bool.and_eq_true_iff.mp hc
        obtain ⟨t, ht⟩ := (isPrefixOf_iff_append pat (a :: l)).mp hp
        exact hocc ⟨[], t, by simpa using ht⟩

theorem replaceAll_eq_self_of_not_occurs [BEq α] [LawfulBEq α] (pat rep l : List α)
    (h : ¬ occursIn pat l) : replaceAll pat rep l = l :=
  replaceAll_of_not_occurs pat rep l.length l le_rfl h

theorem head_mem_of_occurs (p : α) (pr l : List α) (h : occursIn (p :: pr) l) : p ∈ l := by
  obtain ⟨s, t, rfl⟩ := h
  simp

theorem replaceAll_of_head_not_mem [BEq α] [LawfulBEq α] (p : α) (pr rep l : List α)
    (h : ∀ b ∈ l, b ≠ p) : replaceAll (p :: pr) rep l = l :=
  replaceAll_eq_self_of_not_occurs _ _ _ fun hocc =>
    h p (head_mem_of_occurs p pr l hocc) rfl

theorem replaceAll_append_of_head_not_mem [BEq α] [LawfulBEq α] (p : α)
    (pr rep : List α) :
    ∀ (f : Nat) (u rest : List α), (u ++ rest).length ≤ f → (∀ b ∈ u, b ≠ p) →
      replaceAllF (p :: pr) rep f (u ++ rest) = u ++ replaceAll (p :: pr) rep rest := by
  intro f
  induction f with
  | zero =>
    intro u rest h1 _
    have h2 : u = [] ∧ rest = [] := by
      constructor <;> (cases u <;> cases rest <;> simp_all)
    obtain ⟨rfl, rfl⟩ := h2
    rfl
  | succ f ih =>
    intro u rest h1 hu
    cases u with
    | nil =>
      simpa using replaceAllF_eq_replaceAll (p :: pr) rep (f + 1) rest (by simpa using h1)
    | cons a u =>
      simp only [List.cons_append, List.length_cons, Nat.succ_le_succ_iff] at h1 ⊢
      simp only [replaceAllF]
      rw [if_neg]
      · rw [ih u rest h1 fun b hb => hu b (List.mem_cons_of_mem a hb)]
      · have ha : (p == a) = false := by
          have := hu a (List.mem_cons_self a u)
          simp [beq_eq_false_iff_ne]
          exact fun he => this he.symm
        simp [List.isPrefixOf, ha]

theorem occursIn_countP_le (pat l : List α) (q : α → Bool) (h : occursIn pat l) :
    pat.countP q ≤ l.countP q := by
  obtain ⟨s, t, rfl⟩ := h
  simp only [List.countP_append]
  omega

theorem countP_set_le (q : α → Bool) :
    ∀ (l : List α) (j : Nat) (c : α), (l.set j c).countP q ≤ l.countP q + 1 := by
  intro l
  induction l with
  | nil => intro j c; simp
  | cons a l ih =>
    intro j c
    cases j with
    | zero =>
      simp only [List.set, List.countP_cons]
      split_ifs <;> omega
    | succ j =>
      simp only [List.set, List.countP_cons]
      have := ih j c
      omega

theorem getD_set_self (d : α) :
    ∀ (l : List α) (j : Nat) (c : α), j < l.length → (l.set j c).getD j d = c := by
  intro l
  induction l with
  | nil => intro j c h; simp at h
  | cons a l ih =>
    intro j c h
    cases j with
    | zero => rfl
    | succ j => exact ih j c (by simpa using h)

theorem set_ne_self_of_getD_ne (l : List α) (j : Nat) (c d : α) (hj : j < l.length)
    (hc : c ≠ l.getD j d) : l.set j c ≠ l := by
  intro he
  apply hc
  rw [← getD_set_self d l j c hj, he]

theorem getD_append_add (l₁ l₂ : List α) (n : Nat) (d : α) :
    (l₁ ++ l₂).getD (l₁.length + n) d = l₂.getD n d := by
  induction l₁ with
  | nil => simp
  | cons a l ih =>
    have hidx : (a :: l).length + n = (l.length + n) + 1 := by
      simp only [List.length_cons]
      omega
    rw [hidx]
    simpa [List.getD] using ih

theorem getD_append_lt (l₁ l₂ : List α) (n : Nat) (d : α) (h : n < l₁.length) :
    (l₁ ++ l₂).getD n d = l₁.getD n d := by
  induction l₁ generalizing n with
  | nil => simp at h
  | cons a l ih =>
    cases n with
    | zero => rfl
    | succ n => simpa [List.getD] using ih n (by simpa using h)

theorem getD_mem (l : List α) (n : Nat) (d : α) (h : n < l.length) : l.getD n d ∈ l := by
  induction l generalizing n with
  | nil => simp at h
  | cons a l ih =>
    cases n with
    | zero => exact List.mem_cons_self a l
    | succ n => exact List.mem_cons_of_mem a (ih n (by simpa using h))

/-! ## Webhook signature verification (claim C6) -/

theorem shaMarker_countP_nonhex : shaMarker.countP (fun b => !isHexByte b) = 3 := by decide

theorem not_occurs_marker_of_nonhex_le_one (l : List Nat)
    (h : l.countP (fun b => !isHexByte b) ≤ 1) : ¬ occursIn shaMarker l := by
  intro hocc
  have hle := occursIn_countP_le shaMarker l (fun b => !isHexByte b) hocc
  rw [shaMarker_countP_nonhex] at hle
  omega

theorem sha256_bytes_lt (msg : List Nat) : ∀ b ∈ sha256 msg, b < 256 := by
  intro b hb
  simp only [sha256, h8ToBytes, List.mem_flatMap, List.mem_cons,
    List.not_mem_nil, or_false] at hb
  obtain ⟨w, -, hb⟩ := hb
  rcases hb with rfl | rfl | rfl | rfl <;> exact Nat.mod_lt _ (by norm_num)

theorem hmacSha256_bytes_lt (key msg : List Nat) : ∀ b ∈ hmacSha256 key msg, b < 256 := by
  simp only [hmacSha256]
  exact sha256_bytes_lt _

theorem hexChar_isHex (n : Nat) (h : n < 16) : isHexByte (hexChar n) = true := by
  by_cases h10 : n < 10
  · simp only [hexChar, if_pos h10, isHexByte, decide_eq_true_eq]
    omega
  · simp only [hexChar, if_neg h10, isHexByte, decide_eq_true_eq]
    omega

theorem hexDigest_countP_nonhex (bs : List Nat) (h : ∀ b ∈ bs, b < 256) :
    (hexDigest bs).countP (fun b => !isHexByte b) = 0 := by
  induction bs with
  | nil => rfl
  | cons b rest ih =>
    have hb : b < 256 := h b (List.mem_cons_self b rest)
    have h1 : isHexByte (hexChar (b / 16)) = true :=
      hexChar_isHex _ ((Nat.div_lt_iff_lt_mul (by norm_num)).mpr (by omega))
    have h2 : isHexByte (hexChar (b % 16)) = true :=
      hexChar_isHex _ (Nat.mod_lt _ (by norm_num))
    have hrest := ih fun x hx => h x (List.mem_cons_of_mem b hx)
    simp only [hexDigest] at hrest ⊢
    simp [List.countP_cons, h1, h2, hrest]

theorem c6digest_countP_nonhex : c6digest.countP (fun b => !isHexByte b) = 0 :=
  hexDigest_countP_nonhex _ (hmacSha256_bytes_lt _ _)

theorem c6digest_all_hex : ∀ b ∈ c6digest, isHexByte b = true := by
  intro b hb
  have := (List.countP_eq_zero.mp c6digest_countP_nonhex) b hb
  simpa using this

theorem length_hexDigest (bs : List Nat) : (hexDigest bs).length = 2 * bs.length := by
  induction bs with
  | nil => rfl
  | cons b rest ih =>
    simp only [hexDigest] at ih ⊢
    simp [ih]
    omega

theorem length_sha256 (msg : List Nat) : (sha256 msg).length = 32 := rfl

theorem length_hmacSha256 (key msg : List Nat) : (hmacSha256 key msg).length = 32 := by
  simp only [hmacSha256]
  exact length_sha256 _

theorem c6digest_length : c6digest.length = 64 := by
  simp [c6digest, length_hexDigest, length_hmacSha256]

theorem mutated_digest_not_occurs (j : Nat) (c : Nat) :
    ¬ occursIn shaMarker (c6digest.set j c) := by
  refine not_occurs_marker_of_nonhex_le_one _ ?_
  have h1 := countP_set_le (fun b => !isHexByte b) c6digest j c
  rw [c6digest_countP_nonhex] at h1
  omega

theorem digest_not_occurs : ¬ occursIn shaMarker c6digest := by
  refine not_occurs_marker_of_nonhex_le_one _ ?_
  rw [c6digest_countP_nonhex]
  omega

theorem verify_some_eq (s : List Nat) (hs : s.isEmpty = false) (payload sig : List Nat) :
    verifyWebhookSignature (some s) payload sig =
      (replaceAll shaMarker [] sig == hexDigest (hmacSha256 s payload)) := by
  simp [verifyWebhookSignature, hs]

theorem marked_mutated_not_occurs (i : Nat) (c : Nat) (hi : i < shaMarker.length)
    (hc : c ≠ shaMarker.getD i 0) :
    ¬ occursIn shaMarker (shaMarker.set i c ++ c6digest) := by
  rintro ⟨s, t, heq⟩
  rw [List.append_assoc] at heq
  have hqlen : (shaMarker.set i c).length = 7 := by simp [shaMarker, asciiOf]
  by_cases hs0 : s = []
  · subst hs0
    rw [List.nil_append] at heq
    have h7 : shaMarker.set i c = shaMarker := by
      have htake := congrArg (List.take 7) heq
      simpa [List.take_append_eq_append_take, hqlen, List.take_of_length_le,
        show shaMarker.length = 7 from rfl] using htake
    exact set_ne_self_of_getD_ne shaMarker i c 0 hi hc h7
  · have hs1 : 1 ≤ s.length := List.length_pos.mpr hs0
    have hlen := congrArg List.length heq
    simp only [List.length_append, hqlen, c6digest_length,
      show shaMarker.length = 7 from rfl] at hlen
    -- hlen : 7 + 64 = s.length + (7 + t.length)
    have hs64 : s.length ≤ 64 := by omega
    have hval : (shaMarker.set i c ++ c6digest).getD (s.length + 6) 0 =
        (shaMarker ++ t).getD 6 0 := by
      conv_lhs => rw [heq]
      exact getD_append_add s (shaMarker ++ t) 6 0
    have h61 : (shaMarker ++ t).getD 6 0 = 61 := by
      rw [getD_append_lt shaMarker t 6 0 (by simp [shaMarker, asciiOf])]
      rfl
    have h2 : (shaMarker.set i c ++ c6digest).getD (s.length + 6) 0 =
        c6digest.getD (s.length - 1) 0 := by
      have hidx : s.length + 6 = (shaMarker.set i c).length + (s.length - 1) := by
        rw [hqlen]
        omega
      rw [hidx, getD_append_add]
    have hmem : c6digest.getD (s.length - 1) 0 ∈ c6digest :=
      getD_mem _ _ _ (by rw [c6digest_length]; omega)
    have hhex := c6digest_all_hex _ hmem
    rw [← h2, hval, h61] at hhex
    simp [isHexByte] at hhex

/-- Claim C6 as frozen is false on the code: the signature header is cleaned
with `signature.replace('sha256=', '')`, which removes every occurrence of the
marker, so strings other than the digest and the prefixed digest are accepted.
Witnessed here: the digest with an extra `"sha256="` spliced in after its third
byte verifies, although it is neither `hmac_sha256(s,p)` nor
`"sha256=" + hmac_sha256(s,p)`. -/
theorem c6_counterexample :
    verifyWebhookSignature (some c6secret) c6payload c6splicedSig = true ∧
    c6splicedSig ≠ c6digest ∧ c6splicedSig ≠ shaMarker ++ c6digest := by
  refine ⟨by decide, by decide, by decide⟩

/-- Claim C6, amended: with secret `"s"` and payload `"p"`, `verifySignature`
accepts the signature `hmac_sha256("s","p")` (hex), with or without the
`"sha256="` prefix — though not only those strings, since every occurrence of
`"sha256="` is removed before comparison; any single-byte mutation of the bare
digest or of the prefixed digest is rejected; with no secret configured
(`None` or empty), every payload/signature pair is accepted. -/
theorem c6_amended :
    (∀ payload sig, verifyWebhookSignature none payload sig = true) ∧
    (∀ payload sig, verifyWebhookSignature (some []) payload sig = true) ∧
    verifyWebhookSignature (some c6secret) c6payload c6digest = true ∧
    verifyWebhookSignature (some c6secret) c6payload (shaMarker ++ c6digest) = true ∧
    (∀ j c, j < c6digest.length → c ≠ c6digest.getD j 0 →
      verifyWebhookSignature (some c6secret) c6payload (c6digest.set j c) = false) ∧
    (∀ j c, j < c6digest.length → c ≠ c6digest.getD j 0 →
      verifyWebhookSignature (some c6secret) c6payload (shaMarker ++ c6digest.set j c) =
        false) ∧
    (∀ i c, i < shaMarker.length → c ≠ shaMarker.getD i 0 →
      verifyWebhookSignature (some c6secret) c6payload (shaMarker.set i c ++ c6digest) =
        false) := by
  have hsecret : c6secret.isEmpty = false := rfl
  have hdigest : hexDigest (hmacSha256 c6secret c6payload) = c6digest := rfl
  refine ⟨fun payload sig => rfl, fun payload sig => rfl, by decide, by decide, ?_, ?_, ?_⟩
  · intro j c hj hc
    rw [verify_some_eq c6secret hsecret, hdigest,
      replaceAll_eq_self_of_not_occurs _ _ _ (mutated_digest_not_occurs j c)]
    rw [beq_eq_false_iff_ne]
    exact set_ne_self_of_getD_ne c6digest j c 0 hj hc
  · intro j c hj hc
    rw [verify_some_eq c6secret hsecret, hdigest,
      replaceAll_append_self _ _ _ (by decide),
      replaceAll_eq_self_of_not_occurs _ _ _ (mutated_digest_not_occurs j c),
      List.nil_append, beq_eq_false_iff_ne]
    exact set_ne_self_of_getD_ne c6digest j c 0 hj hc
  · intro i c hi hc
    rw [verify_some_eq c6secret hsecret, hdigest,
      replaceAll_eq_self_of_not_occurs _ _ _ (marked_mutated_not_occurs i c hi hc),
      beq_eq_false_iff_ne]
    intro he
    have hlen := congrArg List.length he
    simp [c6digest_length, shaMarker, asciiOf] at hlen

/-- Witness for `c6_amended` at concrete inputs: mutating the first byte of
the bare digest (to `"x"`), the first byte of the digest part of the prefixed
signature, and the first byte of the prefix itself all fail verification. -/
theorem c6_amended_witness :
    verifyWebhookSignature (some c6secret) c6payload (c6digest.set 0 120) = false ∧
    verifyWebhookSignature (some c6secret) c6payload (shaMarker ++ c6digest.set 0 120) =
      false ∧
    verifyWebhookSignature (some c6secret) c6payload (shaMarker.set 0 120 ++ c6digest) =
      false :=
  ⟨c6_amended.2.2.2.2.1 0 120 (by decide) (by decide),
   c6_amended.2.2.2.2.2.1 0 120 (by decide) (by decide),
   c6_amended.2.2.2.2.2.2 0 120 (by decide) (by decide)⟩

/-! ## Phone normalization (claim C8) -/

/-- Claim C8: `_clean_phone_number` strips all non-digit characters (the
result only depends on the digits of the input), and applies the default
`"91"` country-code prefix whenever the digit string does not already start
with the country code `"91"` and has the domestic length of ten digits; in
particular `"9876543210"` normalizes to `"919876543210"`. -/
theorem c8_clean_phone_number :
    (∀ phone : Str, cleanPhoneNumber phone = cleanPhoneNumber (phone.filter Char.isDigit)) ∧
    (∀ phone : Str, "91".data.isPrefixOf (phone.filter Char.isDigit) = false →
      (phone.filter Char.isDigit).length = 10 →
      cleanPhoneNumber phone = "91".data ++ phone.filter Char.isDigit) ∧
    cleanPhoneNumber "9876543210".data = "919876543210".data := by
  refine ⟨?_, ?_, by decide⟩
  · intro phone
    simp [cleanPhoneNumber, List.filter_filter]
  · intro phone h1 h2
    simp [cleanPhoneNumber, h1, h2]

/-- Witness for `c8_clean_phone_number` on an input with separator
characters: the digits are kept and the country code is applied. -/
theorem c8_witness :
    cleanPhoneNumber "98-7654-3210".data = "919876543210".data := by
  have h := c8_clean_phone_number.2.1 "98-7654-3210".data (by decide) (by decide)
  exact h.trans (by decide)

/-! ## Eligibility of unmapped categories (claim C10) -/

/-- Claim C10: with the master opt-in flag set, a category that has no
per-category switch — CUSTOM is the only one — is always sendable, whatever
the per-category switches hold, because `type_mapping.get(notification_type,
True)` defaults to `True`. -/
theorem c10_custom_default_sendable (p : NotificationPreference)
    (h : p.whatsapp_opted_in = true) :
    shouldSendNotification p NotificationType.custom = true := by
  simp [shouldSendNotification, h]

/-- Witness for `c10_custom_default_sendable`: an opted-in customer with every
per-category switch disabled can still receive CUSTOM notifications. -/
theorem c10_witness :
    shouldSendNotification
      ⟨7, true, none, false, false, false, false, false, "en".data⟩
      NotificationType.custom = true :=
  c10_custom_default_sendable _ rfl

/-! ## Bulk sends (claim C9) -/

theorem countP_add_countP_not (q : α → Bool) (l : List α) :
    l.countP q + l.countP (fun a => !q a) = l.length := by
  induction l with
  | nil => rfl
  | cons a l ih =>
    simp only [List.countP_cons, List.length_cons]
    cases hq : q a <;> simp [hq] <;> omega

theorem bulk_foldl_counts (sendOne : Nat → SendOutcome) :
    ∀ (ids : List Nat) (r : BulkResults),
      (ids.foldl (bulkStep sendOne) r).success =
          r.success + (ids.filter fun i => outcomeSuccess (sendOne i)).length ∧
        (ids.foldl (bulkStep sendOne) r).failed =
          r.failed + (ids.filter fun i => !outcomeSuccess (sendOne i)).length := by
  intro ids
  induction ids with
  | nil => intro r; simp
  | cons i ids ih =>
    intro r
    obtain ⟨h1, h2⟩ := ih (bulkStep sendOne r i)
    constructor
    · rw [List.foldl_cons, h1]
      cases hs : outcomeSuccess (sendOne i) <;>
        simp [bulkStep, hs, List.filter_cons] <;> omega
    · rw [List.foldl_cons, h2]
      cases hs : outcomeSuccess (sendOne i) <;>
        simp [bulkStep, hs, List.filter_cons] <;> omega

/-- Claim C9: a bulk request with more than 100 customer ids is rejected by
the pydantic validator before any send happens; with at most 100 ids the loop
runs to completion, every customer is counted exactly once (successes plus
failures equal the batch size), and the tallies are determined pointwise by
the per-customer outcomes — so no customer's failure prevents the remaining
sends. -/
theorem c9_bulk_validation (sendOne : Nat → SendOutcome) (ids : List Nat) :
    (100 < ids.length →
      processBulkRequest sendOne ids =
        .error "Too many customers in batch (max 100)".data) ∧
    (ids.length ≤ 100 →
      processBulkRequest sendOne ids = .ok (sendBulkNotifications sendOne ids) ∧
      (sendBulkNotifications sendOne ids).success +
          (sendBulkNotifications sendOne ids).failed = ids.length ∧
      (sendBulkNotifications sendOne ids).success =
          (ids.filter fun i => outcomeSuccess (sendOne i)).length ∧
      (sendBulkNotifications sendOne ids).failed =
          (ids.filter fun i => !outcomeSuccess (sendOne i)).length) := by
  constructor
  · intro h
    simp [processBulkRequest, validateCustomerIds, h]
  · intro h
    have hv : validateCustomerIds ids = .ok ids := by
      simp [validateCustomerIds]
      omega
    have hc := bulk_foldl_counts sendOne ids ⟨0, 0, []⟩
    simp only [Nat.zero_add] at hc
    have hcount : (ids.filter fun i => outcomeSuccess (sendOne i)).length +
        (ids.filter fun i => !outcomeSuccess (sendOne i)).length = ids.length := by
      simpa [List.countP_eq_length_filter] using
        countP_add_countP_not (fun i => outcomeSuccess (sendOne i)) ids
    refine ⟨by simp [processBulkRequest, hv], ?_, hc.1, hc.2⟩
    rw [show sendBulkNotifications sendOne ids = ids.foldl (bulkStep sendOne) ⟨0, 0, []⟩
      from rfl, hc.1, hc.2, hcount]

/-- Witness for `c9_bulk_validation`: a two-customer batch where customer 1
fails is accepted by validation and both customers are tallied. -/
theorem c9_witness :
    processBulkRequest c9demoSend [1, 2] = .ok (sendBulkNotifications c9demoSend [1, 2]) ∧
    (sendBulkNotifications c9demoSend [1, 2]).success +
      (sendBulkNotifications c9demoSend [1, 2]).failed = 2 :=
  ⟨((c9_bulk_validation c9demoSend [1, 2]).2 (by norm_num)).1,
   ((c9_bulk_validation c9demoSend [1, 2]).2 (by norm_num)).2.1⟩

/-! ## Retry of failed notifications (claim C2) -/

theorem retryOne_retry_count (enabled : Bool) (outcome : ChannelOutcome) (now : Nat)
    (n : Notification) :
    (retryOne enabled outcome now n).retry_count = n.retry_count + 1 := by
  cases hs : (sendViaWhatsApp enabled outcome n now).2.success <;>
    simp [retryOne, hs]

/-- Claim C2: `retry_failed_notifications(max_retries)` leaves every record
whose `retry_count` already reached the ceiling untouched (such records are
excluded by the selection filter), and every record it does retry ends with
`retry_count` incremented by exactly one, whatever the channel outcome. -/
theorem c2_retry_ceiling (db : List Notification) (enabled : Bool)
    (outcomes : Nat → ChannelOutcome) (now max_retries : Nat) :
    (∀ (i : Nat) (hi : i < db.length), max_retries ≤ db[i].retry_count →
      (retryFailedNotifications db enabled outcomes now max_retries).1[i]? = some db[i]) ∧
    (∀ (i : Nat) (hi : i < db.length), retryEligible max_retries db[i] = true →
      ((retryFailedNotifications db enabled outcomes now max_retries).1[i]?.map
        Notification.retry_count) = some (db[i].retry_count + 1)) := by
  constructor
  · intro i hi hceil
    have hne : retryEligible max_retries db[i] = false := by
      simp [retryEligible]
      omega
    simp [retryFailedNotifications, List.getElem?_map, List.getElem?_eq_getElem hi, hne]
  · intro i hi helig
    simp [retryFailedNotifications, List.getElem?_map, List.getElem?_eq_getElem hi, helig,
      retryOne_retry_count]

/-- Witness for `c2_retry_ceiling`: with a failing channel, the record at the
ceiling is untouched and the eligible record's counter goes from 1 to 2. -/
theorem c2_witness :
    (retryFailedNotifications [failedOnceNotification, exhaustedNotification] true
        (fun _ => .apiError "still down".data) 5 3).1[1]? = some exhaustedNotification ∧
    ((retryFailedNotifications [failedOnceNotification, exhaustedNotification] true
        (fun _ => .apiError "still down".data) 5 3).1[0]?.map Notification.retry_count) =
      some 2 :=
  ⟨(c2_retry_ceiling [failedOnceNotification, exhaustedNotification] true
      (fun _ => .apiError "still down".data) 5 3).1 1 (by norm_num) (by decide),
   (c2_retry_ceiling [failedOnceNotification, exhaustedNotification] true
      (fun _ => .apiError "still down".data) 5 3).2 0 (by norm_num) (by decide)⟩

/-! ## Orchestrator send paths (claims C1, C3, C4, C5) -/

theorem pyTruthy_some (l : Str) (h : l ≠ []) : pyTruthy (some l) = true := by
  simp [pyTruthy, h]

theorem updateNotificationStatus_message_text (n : Notification) (status : MessageStatus)
    (message_id error_message : Option Str) (now : Nat) :
    (updateNotificationStatus n status message_id error_message now).message_text =
      n.message_text := by
  unfold updateNotificationStatus
  dsimp only
  split <;> split <;> rfl

theorem sendViaWhatsApp_message_text (enabled : Bool) (outcome : ChannelOutcome)
    (n : Notification) (now : Nat) :
    (sendViaWhatsApp enabled outcome n now).1.message_text = n.message_text := by
  unfold sendViaWhatsApp
  cases enabled with
  | false => rfl
  | true => cases outcome <;> simp [updateNotificationStatus_message_text]

theorem orchestratorRecordResult_message_text (n : Notification) (result : SendResult) :
    (orchestratorRecordResult n result).message_text = n.message_text := by
  unfold orchestratorRecordResult
  dsimp only
  split <;> split <;> rfl

/-- Claim C4: when the stored preferences disable the request's category —
`order_updates = false` against category ORDER_CONFIRMATION — `send` returns
the suppressed-send outcome `{"success": False, "error": "Customer opted
out"}` before any record is created: the notification table is unchanged. -/
theorem c4_opted_out (env : Env) (db : List Notification) (req : SendNotificationRequest)
    (enabled : Bool) (outcome : ChannelOutcome) (now : Nat) (c : Customer)
    (hc : env.customers.find? (fun x => x.id == req.customer_id) = some c)
    (hpref : (getNotificationPreferences env.preferences req.customer_id).1.order_updates =
      false)
    (ht : req.notification_type = .order_confirmation) :
    sendNotification env db req enabled outcome now =
      (.failure "Customer opted out".data, db,
        (getNotificationPreferences env.preferences req.customer_id).2) := by
  have hshould : shouldSendNotification
      (getNotificationPreferences env.preferences req.customer_id).1
      req.notification_type = false := by
    rw [ht]
    unfold shouldSendNotification
    by_cases hopt :
        (getNotificationPreferences env.preferences req.customer_id).1.whatsapp_opted_in
    · simp [hopt, hpref]
    · simp [hopt]
  unfold sendNotification
  rw [hc]
  simp [hshould]

/-- Witness for `c4_opted_out`: customer 7 has `order_updates` disabled and an
ORDER_CONFIRMATION send is suppressed with no record created. -/
theorem c4_witness :
    sendNotification optedOutEnv [] demoRequest true (.ok "wamid.9".data) 0 =
      (.failure "Customer opted out".data, [],
        (getNotificationPreferences optedOutEnv.preferences demoRequest.customer_id).2) :=
  c4_opted_out optedOutEnv [] demoRequest true (.ok "wamid.9".data) 0 demoCustomer
    rfl rfl rfl

/-- Claim C5: a template-based send whose name matches no active and approved
template fails with `"Template not found or not approved"` and creates no
notification record. -/
theorem c5_template_missing (env : Env) (db : List Notification)
    (req : SendNotificationRequest) (enabled : Bool) (outcome : ChannelOutcome) (now : Nat)
    (c : Customer)
    (hc : env.customers.find? (fun x => x.id == req.customer_id) = some c)
    (hs : shouldSendNotification (getNotificationPreferences env.preferences req.customer_id).1
      req.notification_type = true)
    (hp : pyTruthy (pyOr
      (getNotificationPreferences env.preferences req.customer_id).1.whatsapp_phone
      c.phone) = true)
    (htn : pyTruthy req.template_name = true)
    (hfind : env.templates.find? (fun t =>
      t.template_name == req.template_name.getD [] && t.is_active && t.is_approved) = none) :
    sendNotification env db req enabled outcome now =
      (.failure "Template not found or not approved".data, db,
        (getNotificationPreferences env.preferences req.customer_id).2) := by
  have hres : resolveContent env.templates req =
      .error "Template not found or not approved".data := by
    simp [resolveContent, htn, hfind]
  unfold sendNotification
  rw [hc]
  simp [hs, hp, hres]

/-- Witness for `c5_template_missing`: the request names `no_such_template`,
absent from the template store. -/
theorem c5_witness :
    sendNotification demoEnv [] missingTemplateRequest true (.ok "wamid.9".data) 0 =
      (.failure "Template not found or not approved".data, [],
        (getNotificationPreferences demoEnv.preferences
          missingTemplateRequest.customer_id).2) :=
  c5_template_missing demoEnv [] missingTemplateRequest true (.ok "wamid.9".data) 0
    demoCustomer rfl rfl rfl rfl rfl

/-- Claim C1: on the immediate (non-scheduled) path, after the eligibility
checks pass and a record is created, a successful channel send leaves exactly
one new record with status SENT, `sent_at` set (to the send time) and
`whatsapp_message_id` equal to the provider-returned id — provided the
provider id is non-empty, since the code guards both assignments with Python
truthiness; a channel failure leaves the new record with status FAILED, a
non-null `error_message` (for a non-empty provider error text) and `sent_at`
still null. -/
theorem c1_immediate_send (env : Env) (db : List Notification)
    (req : SendNotificationRequest) (now : Nat) (c : Customer) (content : Option Nat × Str)
    (hc : env.customers.find? (fun x => x.id == req.customer_id) = some c)
    (hs : shouldSendNotification (getNotificationPreferences env.preferences req.customer_id).1
      req.notification_type = true)
    (hp : pyTruthy (pyOr
      (getNotificationPreferences env.preferences req.customer_id).1.whatsapp_phone
      c.phone) = true)
    (hr : resolveContent env.templates req = .ok content)
    (hsched : scheduledInFuture req.scheduled_at now = false) :
    (∀ mid : Str, mid ≠ [] →
      ∃ fin : Notification,
        (sendNotification env db req true (.ok mid) now).1 =
            .sent true db.length (some mid) none ∧
        (sendNotification env db req true (.ok mid) now).2.1 = db ++ [fin] ∧
        fin.status = .sent ∧ fin.sent_at = some now ∧
        fin.whatsapp_message_id = some mid ∧ fin.error_message = none) ∧
    (∀ e : Str, e ≠ [] →
      ∃ fin : Notification,
        (sendNotification env db req true (.apiError e) now).1 =
            .sent false db.length none (some e) ∧
        (sendNotification env db req true (.apiError e) now).2.1 = db ++ [fin] ∧
        fin.status = .failed ∧ fin.error_message = some e ∧ fin.sent_at = none) := by
  constructor
  · intro mid hmid
    have hmid' : pyTruthy (some mid) = true := pyTruthy_some mid hmid
    unfold sendNotification
    rw [hc]
    simp only [hs, hp, hr, hsched, Bool.not_true, Bool.false_eq_true, if_false, ite_false,
      Bool.not_false]
    refine ⟨_, ?_, rfl, ?_, ?_, ?_, ?_⟩ <;>
      simp [sendViaWhatsApp, updateNotificationStatus, orchestratorRecordResult, hmid',
        pyTruthy, hmid]
  · intro e he
    have he' : pyTruthy (some e) = true := pyTruthy_some e he
    unfold sendNotification
    rw [hc]
    simp only [hs, hp, hr, hsched, Bool.not_true, Bool.false_eq_true, if_false, ite_false,
      Bool.not_false]
    refine ⟨_, ?_, rfl, ?_, ?_, ?_⟩ <;>
      simp [sendViaWhatsApp, updateNotificationStatus, orchestratorRecordResult, he',
        pyTruthy, he]

/-- Witness for `c1_immediate_send`: the demonstration scenario, sent once
with a provider id and once with a provider error. -/
theorem c1_witness :
    (∃ fin : Notification,
      (sendNotification demoEnv [] demoRequest true (.ok "wamid.ok1".data) 0).1 =
          .sent true 0 (some "wamid.ok1".data) none ∧
      (sendNotification demoEnv [] demoRequest true (.ok "wamid.ok1".data) 0).2.1 =
          [] ++ [fin] ∧
      fin.status = .sent ∧ fin.sent_at = some 0 ∧
      fin.whatsapp_message_id = some "wamid.ok1".data ∧ fin.error_message = none) ∧
    (∃ fin : Notification,
      (sendNotification demoEnv [] demoRequest true (.apiError "rate limited".data) 0).1 =
          .sent false 0 none (some "rate limited".data) ∧
      (sendNotification demoEnv [] demoRequest true (.apiError "rate limited".data) 0).2.1 =
          [] ++ [fin] ∧
      fin.status = .failed ∧ fin.error_message = some "rate limited".data ∧
      fin.sent_at = none) :=
  ⟨(c1_immediate_send demoEnv [] demoRequest 0 demoCustomer _ rfl rfl rfl rfl rfl).1
      "wamid.ok1".data (by decide),
   (c1_immediate_send demoEnv [] demoRequest 0 demoCustomer _ rfl rfl rfl rfl rfl).2
      "rate limited".data (by decide)⟩

/-- Claim C3 as frozen is false on the code: a send request with neither a
template name nor a custom message does not fail — line 81 defaults the
message text to `"Order update"` and the pipeline proceeds to create a record
and transmit it.  Witnessed by a concrete request with both fields absent
whose send succeeds and creates one record carrying the default text. -/
theorem c3_counterexample :
    ((sendNotification demoEnv [] bareRequest true (.ok "wamid.c3".data) 0).2.1.map
        Notification.message_text) = ["Order update".data] ∧
    (sendNotification demoEnv [] bareRequest true (.ok "wamid.c3".data) 0).1 =
      .sent true 0 (some "wamid.c3".data) none := by
  exact ⟨by decide, by decide⟩

/-- Claim C3, amended: for every send request with no template name and no
free-text content that passes the customer/eligibility/phone checks, the send
does not fail; the message text defaults to `"Order update"`, a notification
record is created, and the pipeline proceeds to the transmission stage. -/
theorem c3_amended_default_text (env : Env) (db : List Notification)
    (req : SendNotificationRequest) (enabled : Bool) (outcome : ChannelOutcome) (now : Nat)
    (c : Customer)
    (hc : env.customers.find? (fun x => x.id == req.customer_id) = some c)
    (hs : shouldSendNotification (getNotificationPreferences env.preferences req.customer_id).1
      req.notification_type = true)
    (hp : pyTruthy (pyOr
      (getNotificationPreferences env.preferences req.customer_id).1.whatsapp_phone
      c.phone) = true)
    (htn : pyTruthy req.template_name = false)
    (hcm : pyTruthy req.custom_message = false)
    (hsched : scheduledInFuture req.scheduled_at now = false) :
    ∃ fin : Notification,
      (sendNotification env db req enabled outcome now).2.1 = db ++ [fin] ∧
      fin.message_text = "Order update".data ∧
      ∃ su mi er, (sendNotification env db req enabled outcome now).1 =
        .sent su db.length mi er := by
  have hres : resolveContent env.templates req = .ok (none, "Order update".data) := by
    simp [resolveContent, htn, hcm]
  unfold sendNotification
  rw [hc]
  simp only [hs, hp, hres, hsched, Bool.not_true, Bool.false_eq_true, if_false, ite_false,
    Bool.not_false]
  refine ⟨_, rfl, ?_, _, _, _, rfl⟩
  rw [orchestratorRecordResult_message_text, sendViaWhatsApp_message_text]

/-- Witness for `c3_amended_default_text`: a bare request against the
demonstration environment with a failing channel still creates the
default-text record and reaches the transmission stage. -/
theorem c3_witness :
    ∃ fin : Notification,
      (sendNotification demoEnv [] bareRequest true (.apiError "down".data) 0).2.1 =
          [] ++ [fin] ∧
      fin.message_text = "Order update".data ∧
      ∃ su mi er, (sendNotification demoEnv [] bareRequest true
        (.apiError "down".data) 0).1 = .sent su 0 mi er :=
  c3_amended_default_text demoEnv [] bareRequest true (.apiError "down".data) 0
    demoCustomer rfl rfl rfl rfl rfl rfl

/-! ## Template rendering (claim C7) -/

theorem placeholderChars_eq (n : Nat) :
    placeholderChars n =
      lbrace :: lbrace :: 'p' :: 'a' :: 'r' :: 'a' :: 'm' ::
        (natToChars n ++ ['\x7d', '\x7d']) := rfl

theorem natToCharsF_digits :
    ∀ (f n : Nat) (ch : Char), ch ∈ natToCharsF f n → ∃ d, d < 10 ∧ ch = Char.ofNat (48 + d) := by
  intro f
  induction f with
  | zero => intro n ch h; simp [natToCharsF] at h
  | succ f ih =>
    intro n ch h
    by_cases h10 : n < 10
    · simp only [natToCharsF, if_pos h10, List.mem_singleton] at h
      exact ⟨n, h10, h⟩
    · simp only [natToCharsF, if_neg h10, List.mem_append, List.mem_singleton] at h
      rcases h with h | h
      · exact ih _ _ h
      · exact ⟨n % 10, Nat.mod_lt _ (by norm_num), h⟩

theorem digitChar_ne_lbrace (d : Nat) (hd : d < 10) : Char.ofNat (48 + d) ≠ lbrace := by
  interval_cases d <;> decide

theorem natToChars_ne_lbrace (n : Nat) : ∀ ch ∈ natToChars n, ch ≠ lbrace := by
  intro ch h
  obtain ⟨d, hd, rfl⟩ := natToCharsF_digits _ _ _ h
  exact digitChar_ne_lbrace d hd

theorem natToChars_ne_nil (n : Nat) : natToChars n ≠ [] := by
  unfold natToChars natToCharsF
  split <;> simp

theorem placeholderChars_length (n : Nat) : 10 ≤ (placeholderChars n).length := by
  rw [placeholderChars_eq]
  have h1 : 1 ≤ (natToChars n).length :=
    List.length_pos.mpr (natToChars_ne_nil n)
  simp only [List.length_cons, List.length_append, List.length_cons, List.length_nil]
  omega

theorem placeholderChars_ne_nil (n : Nat) : placeholderChars n ≠ [] := by
  rw [placeholderChars_eq]
  simp

theorem placeholder_take_ne :
    ∀ i ∈ Finset.Icc 1 10, ∀ n ∈ Finset.Icc 1 10, i ≠ n →
      (placeholderChars i).take 10 ≠ (placeholderChars n).take 10 := by
  decide

theorem placeholder_not_isPrefixOf (i n : Nat) (hi1 : 1 ≤ i) (hi2 : i ≤ 10)
    (hn1 : 1 ≤ n) (hn2 : n ≤ 10) (hin : i ≠ n) (v : Str) :
    (placeholderChars i).isPrefixOf (placeholderChars n ++ v) = false := by
  by_contra hb
  rw [Bool.not_eq_false] at hb
  obtain ⟨t, ht⟩ := (isPrefixOf_iff_append _ _).mp hb
  have h10 := congrArg (List.take 10) ht
  rw [List.take_append_eq_append_take, List.take_append_eq_append_take] at h10
  have l1 : 10 - (placeholderChars n).length = 0 := by
    have := placeholderChars_length n
    omega
  have l2 : 10 - (placeholderChars i).length = 0 := by
    have := placeholderChars_length i
    omega
  rw [l1, l2] at h10
  simp only [List.take_zero, List.append_nil] at h10
  exact placeholder_take_ne i (Finset.mem_Icc.mpr ⟨hi1, hi2⟩)
    n (Finset.mem_Icc.mpr ⟨hn1, hn2⟩) hin h10.symm

theorem replaceAll_append_scan [BEq α] [LawfulBEq α] (p : α) (pr rep u rest : List α)
    (h : ∀ b ∈ u, b ≠ p) :
    replaceAll (p :: pr) rep (u ++ rest) = u ++ replaceAll (p :: pr) rep rest :=
  replaceAll_append_of_head_not_mem p pr rep (u ++ rest).length u rest le_rfl h

theorem replaceAll_placeholder_scan (i : Nat) (rep u rest : Str)
    (hu : ∀ ch ∈ u, ch ≠ lbrace) :
    replaceAll (placeholderChars i) rep (u ++ rest) =
      u ++ replaceAll (placeholderChars i) rep rest := by
  rw [placeholderChars_eq i]
  exact replaceAll_append_scan lbrace _ rep u rest hu

theorem replaceAll_skip_placeholder (i n : Nat) (hi1 : 1 ≤ i) (hi2 : i ≤ 10)
    (hn1 : 1 ≤ n) (hn2 : n ≤ 10) (hin : i ≠ n) (rep v : Str)
    (hv : ∀ ch ∈ v, ch ≠ lbrace) :
    replaceAll (placeholderChars i) rep (placeholderChars n ++ v) =
      placeholderChars n ++ v := by
  have hX : ∀ ch ∈ natToChars n ++ ('\x7d' :: '\x7d' :: v), ch ≠ lbrace := by
    intro ch h
    rcases List.mem_append.mp h with h | h
    · exact natToChars_ne_lbrace n ch h
    · simp only [List.mem_cons] at h
      rcases h with rfl | rfl | h
      · decide
      · decide
      · exact hv ch h
  have hregion : placeholderChars n ++ v =
      lbrace :: lbrace :: 'p' :: 'a' :: 'r' :: 'a' :: 'm' ::
        (natToChars n ++ ('\x7d' :: '\x7d' :: v)) := by
    rw [placeholderChars_eq n]
    simp
  have hc0 : (placeholderChars i).isPrefixOf
      (lbrace :: lbrace :: 'p' :: 'a' :: 'r' :: 'a' :: 'm' ::
        (natToChars n ++ ('\x7d' :: '\x7d' :: v))) = false := by
    rw [← hregion]
    exact placeholder_not_isPrefixOf i n hi1 hi2 hn1 hn2 hin v
  have hc1 : (placeholderChars i).isPrefixOf
      (lbrace :: 'p' :: 'a' :: 'r' :: 'a' :: 'm' ::
        (natToChars n ++ ('\x7d' :: '\x7d' :: v))) = false := by
    rw [placeholderChars_eq i]
    rfl
  have hrest : ∀ ch ∈ 'p' :: 'a' :: 'r' :: 'a' :: 'm' ::
      (natToChars n ++ ('\x7d' :: '\x7d' :: v)), ch ≠ lbrace := by
    intro ch h
    simp only [List.mem_cons] at h
    rcases h with rfl | rfl | rfl | rfl | rfl | h
    · decide
    · decide
    · decide
    · decide
    · decide
    · exact hX ch h
  rw [hregion, replaceAll_cons_of_not_match _ _ _ _ hc0,
    replaceAll_cons_of_not_match _ _ _ _ hc1]
  rw [placeholderChars_eq i]
  rw [replaceAll_of_head_not_mem lbrace _ rep _ hrest]

theorem replaceAll_fire_placeholder (n : Nat) (rep v : Str)
    (hv : ∀ ch ∈ v, ch ≠ lbrace) :
    replaceAll (placeholderChars n) rep (placeholderChars n ++ v) = rep ++ v := by
  rw [replaceAll_append_self _ _ _ (placeholderChars_ne_nil n)]
  congr 1
  rw [placeholderChars_eq n]
  exact replaceAll_of_head_not_mem lbrace _ rep v hv

theorem renderParams_no_brace :
    ∀ (ps : List Str) (k : Nat) (msg : Str),
      (∀ ch ∈ msg, ch ≠ lbrace) → renderParams msg k ps = msg := by
  intro ps
  induction ps with
  | nil => intro k msg _; rfl
  | cons p rest ih =>
    intro k msg h
    show renderParams (replaceAll (placeholderChars (k + 1)) p msg) (k + 1) rest = msg
    rw [placeholderChars_eq (k + 1), replaceAll_of_head_not_mem lbrace _ p msg h]
    exact ih (k + 1) msg h

theorem renderParams_substitute :
    ∀ (ps : List Str) (k : Nat) (u v : Str) (n : Nat),
      k + 1 ≤ n → n ≤ k + ps.length → k + ps.length ≤ 10 →
      (∀ ch ∈ u, ch ≠ lbrace) → (∀ ch ∈ v, ch ≠ lbrace) →
      (∀ p ∈ ps, ∀ ch ∈ p, ch ≠ lbrace) →
      renderParams (u ++ (placeholderChars n ++ v)) k ps =
        u ++ (ps.getD (n - k - 1) [] ++ v) := by
  intro ps
  induction ps with
  | nil =>
    intro k u v n h1 h2 _ _ _ _
    simp only [List.length_nil, Nat.add_zero] at h2
    omega
  | cons p rest ih =>
    intro k u v n h1 h2 h3 hu hv hps
    simp only [List.length_cons] at h2 h3
    have hp : ∀ ch ∈ p, ch ≠ lbrace := hps p (List.mem_cons_self p rest)
    have hrest : ∀ q ∈ rest, ∀ ch ∈ q, ch ≠ lbrace := fun q hq =>
      hps q (List.mem_cons_of_mem p hq)
    show renderParams
      (replaceAll (placeholderChars (k + 1)) p (u ++ (placeholderChars n ++ v)))
      (k + 1) rest = _
    by_cases hkn : k + 1 = n
    · subst hkn
      have hnb : ∀ ch ∈ u ++ (p ++ v), ch ≠ lbrace := by
        intro ch h
        rcases List.mem_append.mp h with h | h
        · exact hu ch h
        · rcases List.mem_append.mp h with h | h
          · exact hp ch h
          · exact hv ch h
      rw [replaceAll_placeholder_scan _ _ _ _ hu, replaceAll_fire_placeholder _ p v hv,
        renderParams_no_brace rest (k + 1) (u ++ (p ++ v)) hnb]
      have hidx : k + 1 - k - 1 = 0 := by omega
      rw [hidx]
      rfl
    · have hlt : k + 1 < n := by omega
      rw [replaceAll_placeholder_scan _ _ _ _ hu,
        replaceAll_skip_placeholder (k + 1) n (by omega) (by omega) (by omega) (by omega)
          hkn p v hv]
      rw [ih (k + 1) u v n (by omega) (by omega) (by omega) hu hv hrest]
      have hidx : n - k - 1 = (n - (k + 1) - 1) + 1 := by omega
      rw [hidx]
      rfl

/-- Claim C7 as frozen is false on the code: substitution is performed by
sequential `str.replace` passes, so a placeholder token contained in an
earlier parameter's value is rewritten by a later pass.  Witnessed here: a
template body that is exactly `"{{param1}}"` rendered with parameters
`["{{param2}}", "y"]` yields `"y"`, not the first parameter `"{{param2}}"`. -/
theorem c7_counterexample :
    buildMessageFromTemplate ⟨1, "t".data, placeholderChars 1, true, true⟩
        [placeholderChars 2, "y".data] = "y".data ∧
      "y".data ≠ placeholderChars 2 :=
  ⟨by decide, by decide⟩

/-- Claim C7, amended: rendering is a pure, deterministic function of the
template body and the parameter list; when no parameter value itself contains
a placeholder token (no `'{'` anywhere), a body `u ++ "{{paramN}}" ++ v` with
brace-free `u`, `v` and `1 ≤ N ≤ len(ps) ≤ 10` renders to `u ++ ps[N-1] ++ v`
— each placeholder is replaced by its 1-indexed parameter; a placeholder with
no corresponding parameter is left verbatim, e.g. a `"{{param5}}"` body with
only three parameters renders unchanged whatever the parameter values are. -/
theorem c7_amended :
    (∀ (t t' : MessageTemplate) (ps : List Str), t.body_text = t'.body_text →
      buildMessageFromTemplate t ps = buildMessageFromTemplate t' ps) ∧
    (∀ (t : MessageTemplate) (u v : Str) (ps : List Str) (n : Nat),
      1 ≤ n → n ≤ ps.length → ps.length ≤ 10 →
      (∀ ch ∈ u, ch ≠ lbrace) → (∀ ch ∈ v, ch ≠ lbrace) →
      (∀ p ∈ ps, ∀ ch ∈ p, ch ≠ lbrace) →
      t.body_text = u ++ (placeholderChars n ++ v) →
      buildMessageFromTemplate t ps = u ++ (ps.getD (n - 1) [] ++ v)) ∧
    (∀ (t : MessageTemplate) (p1 p2 p3 : Str), t.body_text = placeholderChars 5 →
      buildMessageFromTemplate t [p1, p2, p3] = placeholderChars 5) := by
  refine ⟨?_, ?_, ?_⟩
  · intro t t' ps hbody
    unfold buildMessageFromTemplate
    rw [hbody]
  · intro t u v ps n h1 h2 h3 hu hv hps hbody
    unfold buildMessageFromTemplate
    rw [hbody]
    have := renderParams_substitute ps 0 u v n (by omega) (by omega) (by omega) hu hv hps
    simpa using this
  · intro t p1 p2 p3 hbody
    unfold buildMessageFromTemplate
    rw [hbody]
    rfl

/-- Witness for `c7_amended`: `"Hello {{param2}}!"` with parameters
`["Ana", "Bob"]` renders to `"Hello Bob!"`, and a `"{{param5}}"` body with
three parameters is left verbatim. -/
theorem c7_witness :
    buildMessageFromTemplate
        ⟨1, "t".data, "Hello ".data ++ (placeholderChars 2 ++ "!".data), true, true⟩
        ["Ana".data, "Bob".data] =
      "Hello ".data ++ ("Bob".data ++ "!".data) ∧
    buildMessageFromTemplate ⟨1, "t".data, placeholderChars 5, true, true⟩
        ["a".data, "b".data, "c".data] = placeholderChars 5 :=
  ⟨c7_amended.2.1 _ "Hello ".data "!".data ["Ana".data, "Bob".data] 2
      (by norm_num) (by norm_num) (by norm_num) (by decide) (by decide) (by decide) rfl,
   c7_amended.2.2 _ "a".data "b".data "c".data rfl⟩

end Laundry
